import Mathlib

/-!
# WaitTime: the non-blocking interval timer of SmallCircuits

Shallow embedding of `ArduinoNachlaufRegler/SW/NachlaufRegelung/WaitTime.h`.

* The object is a record of its seven private members; every member function
  is a pure function on that record.
* `millis()` is the explicit argument `now` of every function that reads the clock.
* `unsigned long` is 32 bits wide on the Arduino targets; members are natural
  numbers and the only arithmetic of the class, subtraction, is taken modulo `2^32`.
-/

namespace SmallCircuits

/-- Number of values of an `unsigned long` (32 bits). -/
def ULONG_MOD : Nat := 4294967296

/-- Subtraction of two `unsigned long` values, `a - b` in C++: it wraps modulo `2^32`. -/
def usub (a b : Nat) : Nat :=
  (a % ULONG_MOD + (ULONG_MOD - b % ULONG_MOD)) % ULONG_MOD

/-- The private members of `class WaitTime`. -/
structure WaitTime where
  mStartTime : Nat
  mWaitTime : Nat
  mDuration : Nat
  mLastStart : Nat
  mInitialized : Bool
  mContinue : Bool
  mPause : Bool
deriving DecidableEq

namespace WaitTime

/-- Every `unsigned long` member holds a 32 bit value. -/
def wellTyped (w : WaitTime) : Prop :=
  w.mStartTime < ULONG_MOD ∧ w.mWaitTime < ULONG_MOD ∧
    w.mDuration < ULONG_MOD ∧ w.mLastStart < ULONG_MOD

instance (w : WaitTime) : Decidable w.wellTyped := by
  unfold wellTyped; infer_instance

/-- Member function `void init()`. -/
def init (w : WaitTime) : WaitTime :=
  { w with
    mStartTime := 0
    mLastStart := 0
    mInitialized := false
    mContinue := false
    mPause := false }

/-- Member function `void init(unsigned long interval)`. -/
def initInterval (w : WaitTime) (interval : Nat) : WaitTime :=
  { w with
    mStartTime := 0
    mLastStart := interval
    mInitialized := false
    mPause := false
    mContinue := true }

/-- Member function `void setTime(unsigned long interval)`. -/
def setTime (w : WaitTime) (interval : Nat) : WaitTime :=
  init { w with mWaitTime := interval }

/-- The constructor `WaitTime()`: it calls `setTime(0)`. No statement of the class
initialises `mDuration` (nor, before `setTime` runs, any other member), so the object
starts from whatever the storage held: the argument `garbage`. -/
def new (garbage : WaitTime) : WaitTime :=
  setTime garbage 0

/-- Member function `void start()`. -/
def start (w : WaitTime) (now : Nat) : WaitTime :=
  if w.mInitialized = false then
    { w with mStartTime := now, mInitialized := true }
  else w

/-- Member function `void start(unsigned long interval)`. -/
def startInterval (w : WaitTime) (interval : Nat) (now : Nat) : WaitTime :=
  if w.mContinue then
    start { w with mWaitTime := w.mLastStart } now
  else
    start { w with mWaitTime := interval } now

/-- Member function `void restart()`. -/
def restart (w : WaitTime) (now : Nat) : WaitTime :=
  start (init w) now

/-- Member function `void pause()`. -/
def pause (w : WaitTime) (now : Nat) : WaitTime :=
  { w with mPause := true, mDuration := usub now w.mStartTime }

/-- Member function `void resume()`. -/
def resume (w : WaitTime) (now : Nat) : WaitTime :=
  { w with mPause := false, mStartTime := usub now w.mDuration }

/-- Member function `boolean timeOver()`: the returned flag and the object afterwards. -/
def timeOver (w : WaitTime) (now : Nat) : Bool × WaitTime :=
  if w.mPause = false then
    let actTime := now
    let w1 := { w with mDuration := usub actTime w.mStartTime }
    if w1.mDuration ≥ w1.mWaitTime then
      (true, { w1 with mDuration := w1.mWaitTime })
    else
      (false, w1)
  else
    (false, w)

/-- Member function `unsigned long getDuration()`. -/
def getDuration (w : WaitTime) : Nat :=
  usub w.mWaitTime w.mDuration

/-- Member function `boolean timerStarted()`. Its body is the expression statement
`mInitialized;` and nothing else: the member is read, the value is dropped, and control
runs off the end of the function without a `return`. What the caller receives is not
determined by the object; it is the argument `indeterminate`. -/
def timerStarted (w : WaitTime) (indeterminate : Bool) : Bool :=
  let _unused := w.mInitialized
  indeterminate

/-- Member function `boolean isPause()`. -/
def isPause (w : WaitTime) : Bool :=
  w.mPause

/-- An object as some earlier use may have left it: paused, running, in continue mode. -/
def used : WaitTime :=
  { mStartTime := 7, mWaitTime := 7, mDuration := 7, mLastStart := 7,
    mInitialized := true, mContinue := true, mPause := true }

/-- A run of `timeOver()` polls at the given clock readings; the results are dropped. -/
def polls (w : WaitTime) : List Nat → WaitTime
  | [] => w
  | now :: rest => polls (timeOver w now).2 rest

end WaitTime

/-- A call of one member function. -/
inductive Op where
  | setTime (interval : Nat)
  | init
  | initInterval (interval : Nat)
  | startInterval (interval : Nat)
  | start
  | restart
  | pause
  | resume
  | timeOver
  | getDuration
  | isPause
deriving DecidableEq

/-- What a call hands back to the caller. -/
inductive Ret where
  | void
  | bool (b : Bool)
  | ulong (n : Nat)
deriving DecidableEq

/-- One call made while `millis()` reads `now`: the value returned and the object afterwards. -/
def step (w : WaitTime) (now : Nat) : Op → Ret × WaitTime
  | .setTime interval => (.void, w.setTime interval)
  | .init => (.void, w.init)
  | .initInterval interval => (.void, w.initInterval interval)
  | .startInterval interval => (.void, w.startInterval interval now)
  | .start => (.void, w.start now)
  | .restart => (.void, w.restart now)
  | .pause => (.void, w.pause now)
  | .resume => (.void, w.resume now)
  | .timeOver => (.bool (w.timeOver now).1, (w.timeOver now).2)
  | .getDuration => (.ulong w.getDuration, w)
  | .isPause => (.bool w.isPause, w)

/-- The object after a sequence of calls, each paired with the clock reading it sees. -/
def run (w : WaitTime) : List (Op × Nat) → WaitTime
  | [] => w
  | (op, now) :: rest => run (step w now op).2 rest

/-- The values returned by a sequence of calls, in order. -/
def outputs (w : WaitTime) : List (Op × Nat) → List Ret
  | [] => []
  | (op, now) :: rest => (step w now op).1 :: outputs (step w now op).2 rest

/-- The clock readings of a call sequence never decrease, starting from `t0`, and none
of them has wrapped: each is below `2^32`. -/
def clockOk (t0 : Nat) : List (Op × Nat) → Bool
  | [] => true
  | (_, now) :: rest => decide (t0 ≤ now) && decide (now < ULONG_MOD) && clockOk now rest

/-- Calls that leave a reported expiry standing on the object `w`: `start()`, `pause()`,
`resume()`, `timeOver()`, `getDuration()`, and a `start(interval)` whose effective
duration (`mLastStart` in continue mode, `interval` otherwise) does not exceed `mWaitTime`. -/
def latchOp (w : WaitTime) : Op → Bool
  | .start => true
  | .pause => true
  | .resume => true
  | .timeOver => true
  | .getDuration => true
  | .startInterval interval =>
      decide ((if w.mContinue then w.mLastStart else interval) ≤ w.mWaitTime)
  | _ => false

/-- Every call of the sequence satisfies `latchOp` on the object it is applied to. -/
def latchOps (w : WaitTime) : List (Op × Nat) → Bool
  | [] => true
  | (op, now) :: rest => latchOp w op && latchOps (step w now op).2 rest

/-- Expiry stands at clock reading `now`: the timer is started, the whole of `mWaitTime`
has run since `mStartTime` without a wrap of the clock, and the cached `mDuration` is
at least `mWaitTime` and no more than the clock reading. -/
def expiredAt (w : WaitTime) (now : Nat) : Prop :=
  w.mInitialized = true ∧ w.mStartTime + w.mWaitTime ≤ now ∧
    w.mWaitTime ≤ w.mDuration ∧ w.mDuration ≤ now ∧ now < ULONG_MOD

/-- The calls that C13 lists as leaving continue mode alone: `start()`, `start(interval)`,
`pause()`, `resume()`, `timeOver()`, `getDuration()`, `isPause()`. -/
def keepsContinue : Op → Bool
  | .start => true
  | .startInterval _ => true
  | .pause => true
  | .resume => true
  | .timeOver => true
  | .getDuration => true
  | .isPause => true
  | _ => false

/-- What the specification says `restart()` leaves behind at clock reading `now`: a timer
that runs from `now`, is not paused, has no continuation state, and keeps its duration. -/
def restartAsSpecified (w : WaitTime) (now : Nat) : WaitTime :=
  { w with
    mStartTime := now
    mInitialized := true
    mPause := false
    mContinue := false
    mLastStart := 0 }

/-- The calls of a sequence that C19 considers after `setTime(d); start()`. -/
def epochOp : Op → Bool
  | .start => true
  | .startInterval _ => true
  | .pause => true
  | .resume => true
  | .timeOver => true
  | .getDuration => true
  | .isPause => true
  | .restart => true
  | _ => false

/-- The same calls with every clock reading moved on by `k`, as a 32 bit counter shows it. -/
def shiftClock (k : Nat) (evs : List (Op × Nat)) : List (Op × Nat) :=
  evs.map fun ev => (ev.1, (ev.2 + k) % ULONG_MOD)

/-- The object `w` seen from an epoch `k` later: only `mStartTime` moves, by `k`. -/
def shiftStart (k : Nat) (w : WaitTime) : WaitTime :=
  { w with mStartTime := (w.mStartTime + k) % ULONG_MOD }

/-! ## Basic facts -/

theorem usub_of_le {a b : Nat} (hb : b ≤ a) (ha : a < ULONG_MOD) : usub a b = a - b := by
  unfold usub ULONG_MOD at *
  omega

theorem usub_lt (a b : Nat) : usub a b < ULONG_MOD := by
  unfold usub ULONG_MOD
  omega

theorem usub_self_eq_zero (a : Nat) : usub a a = 0 := by
  unfold usub ULONG_MOD
  omega

namespace WaitTime

theorem timeOver_fst (w : WaitTime) (now : Nat) :
    (w.timeOver now).1 = (!w.mPause && decide (w.mWaitTime ≤ usub now w.mStartTime)) := by
  unfold timeOver
  cases hp : w.mPause <;> simp
  split <;> simp_all

theorem timeOver_snd_fields (w : WaitTime) (now : Nat) :
    (w.timeOver now).2.mStartTime = w.mStartTime ∧
    (w.timeOver now).2.mWaitTime = w.mWaitTime ∧
    (w.timeOver now).2.mLastStart = w.mLastStart ∧
    (w.timeOver now).2.mInitialized = w.mInitialized ∧
    (w.timeOver now).2.mContinue = w.mContinue ∧
    (w.timeOver now).2.mPause = w.mPause := by
  unfold timeOver
  cases hp : w.mPause <;> simp [hp]
  split <;> simp_all

theorem timeOver_paused (w : WaitTime) (now : Nat) (hp : w.mPause = true) :
    w.timeOver now = (false, w) := by
  simp [timeOver, hp]

theorem polls_fields (w : WaitTime) (ps : List Nat) :
    (w.polls ps).mStartTime = w.mStartTime ∧
    (w.polls ps).mWaitTime = w.mWaitTime ∧
    (w.polls ps).mLastStart = w.mLastStart ∧
    (w.polls ps).mInitialized = w.mInitialized ∧
    (w.polls ps).mContinue = w.mContinue ∧
    (w.polls ps).mPause = w.mPause := by
  induction ps generalizing w with
  | nil => simp [polls]
  | cons now rest ih =>
    have h := timeOver_snd_fields w now
    have h2 := ih (w.timeOver now).2
    simp only [polls]
    refine ⟨?_, ?_, ?_, ?_, ?_, ?_⟩
    · rw [h2.1, h.1]
    · rw [h2.2.1, h.2.1]
    · rw [h2.2.2.1, h.2.2.1]
    · rw [h2.2.2.2.1, h.2.2.2.1]
    · rw [h2.2.2.2.2.1, h.2.2.2.2.1]
    · rw [h2.2.2.2.2.2, h.2.2.2.2.2]

theorem polls_paused (w : WaitTime) (ps : List Nat) (hp : w.mPause = true) :
    w.polls ps = w := by
  induction ps with
  | nil => rfl
  | cons now rest ih => simp only [polls, timeOver_paused w now hp]; exact ih

end WaitTime

/-! ## Expiry as an invariant of call sequences -/

theorem expiredAt_mono {w : WaitTime} {now n : Nat} (h : expiredAt w now)
    (hn : now ≤ n) (hlt : n < ULONG_MOD) : expiredAt w n := by
  obtain ⟨hI, hS, hD, hDn, _⟩ := h
  exact ⟨hI, by omega, hD, by omega, hlt⟩

theorem expiredAt_of_timeOver {w : WaitTime} {t0 : Nat} (hI : w.mInitialized = true)
    (hS : w.mStartTime ≤ t0) (ht0 : t0 < ULONG_MOD) (hexp : (w.timeOver t0).1 = true) :
    expiredAt (w.timeOver t0).2 t0 := by
  have e : usub t0 w.mStartTime = t0 - w.mStartTime := usub_of_le hS ht0
  unfold WaitTime.timeOver at hexp ⊢
  cases hp : w.mPause
  · simp only [hp, if_true, e] at hexp ⊢
    split at hexp
    · rename_i hge
      simp only [if_pos hge]
      simp only [ge_iff_le] at hge
      exact ⟨hI, by show w.mStartTime + w.mWaitTime ≤ t0; omega, Nat.le_refl _,
        by show w.mWaitTime ≤ t0; omega, ht0⟩
    · simp at hexp
  · simp [hp] at hexp

theorem expiredAt_step {w : WaitTime} {now n : Nat} (op : Op) (h : expiredAt w now)
    (hn : now ≤ n) (hlt : n < ULONG_MOD) (hop : latchOp w op = true) :
    expiredAt (step w n op).2 n := by
  obtain ⟨hI, hS, hD, hDn, hnow⟩ := h
  cases op with
  | setTime interval => simp [latchOp] at hop
  | init => simp [latchOp] at hop
  | initInterval interval => simp [latchOp] at hop
  | restart => simp [latchOp] at hop
  | isPause => simp [latchOp] at hop
  | getDuration =>
    exact ⟨hI, by show w.mStartTime + w.mWaitTime ≤ n; omega, hD,
      by show w.mDuration ≤ n; omega, hlt⟩
  | start =>
    have hst : w.start n = w := by simp [WaitTime.start, hI]
    simp only [step, hst]
    exact ⟨hI, by omega, hD, by omega, hlt⟩
  | startInterval interval =>
    simp only [latchOp, decide_eq_true_eq] at hop
    cases hc : w.mContinue
    · simp only [hc, Bool.false_eq_true, if_false] at hop
      have hst : w.startInterval interval n = { w with mWaitTime := interval } := by
        simp [WaitTime.startInterval, WaitTime.start, hI, hc]
      simp only [step, hst]
      exact ⟨hI, by show w.mStartTime + interval ≤ n; omega,
        by show interval ≤ w.mDuration; omega, by show w.mDuration ≤ n; omega, hlt⟩
    · simp only [hc, if_true] at hop
      have hst : w.startInterval interval n = { w with mWaitTime := w.mLastStart } := by
        simp [WaitTime.startInterval, WaitTime.start, hI, hc]
      simp only [step, hst]
      exact ⟨hI, by show w.mStartTime + w.mLastStart ≤ n; omega,
        by show w.mLastStart ≤ w.mDuration; omega, by show w.mDuration ≤ n; omega, hlt⟩
  | pause =>
    have e : usub n w.mStartTime = n - w.mStartTime := usub_of_le (by omega) hlt
    simp only [step, WaitTime.pause, e]
    exact ⟨hI, by show w.mStartTime + w.mWaitTime ≤ n; omega,
      by show w.mWaitTime ≤ n - w.mStartTime; omega,
      by show n - w.mStartTime ≤ n; omega, hlt⟩
  | resume =>
    have e : usub n w.mDuration = n - w.mDuration := usub_of_le (by omega) hlt
    simp only [step, WaitTime.resume, e]
    exact ⟨hI, by show n - w.mDuration + w.mWaitTime ≤ n; omega, hD,
      by show w.mDuration ≤ n; omega, hlt⟩
  | timeOver =>
    have e : usub n w.mStartTime = n - w.mStartTime := usub_of_le (by omega) hlt
    have hge : n - w.mStartTime ≥ w.mWaitTime := by omega
    cases hp : w.mPause
    · simp only [step, WaitTime.timeOver, hp, if_true, e, if_pos hge]
      exact ⟨hI, by show w.mStartTime + w.mWaitTime ≤ n; omega, Nat.le_refl _,
        by show w.mWaitTime ≤ n; omega, hlt⟩
    · have hto : w.timeOver n = (false, w) := WaitTime.timeOver_paused w n hp
      simp only [step, hto]
      exact ⟨hI, by omega, hD, by omega, hlt⟩

theorem expiredAt_run (evs : List (Op × Nat)) (w : WaitTime) (t0 t : Nat)
    (h : expiredAt w t0) (hops : latchOps w evs = true)
    (hclk : clockOk t0 (evs ++ [(Op.timeOver, t)]) = true) :
    expiredAt (run w evs) t := by
  induction evs generalizing w t0 with
  | nil =>
    simp [clockOk] at hclk
    exact expiredAt_mono h hclk.1 hclk.2
  | cons ev rest ih =>
    obtain ⟨op, n⟩ := ev
    simp only [latchOps, Bool.and_eq_true] at hops
    simp only [List.cons_append, clockOk, Bool.and_eq_true, decide_eq_true_eq] at hclk
    simp only [run]
    exact ih (step w n op).2 n (expiredAt_step op h hclk.1.1 hclk.1.2 hops.1) hops.2 hclk.2

/-! ## Frames of single calls and call sequences -/

theorem timeOver_clamps (w : WaitTime) (now : Nat) :
    (w.timeOver now).1 = true → (w.timeOver now).2.mDuration = (w.timeOver now).2.mWaitTime := by
  intro h
  unfold WaitTime.timeOver at h ⊢
  cases hp : w.mPause
  · simp only [hp, if_true] at h ⊢
    split at h
    · rename_i hge
      simp only [if_pos hge]
    · simp at h
  · simp [hp] at h


theorem step_keepsContinue (w : WaitTime) (now : Nat) (op : Op)
    (hop : keepsContinue op = true) :
    (step w now op).2.mContinue = w.mContinue ∧
      (step w now op).2.mLastStart = w.mLastStart := by
  cases op with
  | setTime interval => simp [keepsContinue] at hop
  | init => simp [keepsContinue] at hop
  | initInterval interval => simp [keepsContinue] at hop
  | restart => simp [keepsContinue] at hop
  | start => cases hI : w.mInitialized <;> simp [step, WaitTime.start, hI]
  | startInterval interval =>
    cases hI : w.mInitialized <;> cases hc : w.mContinue <;>
      simp [step, WaitTime.startInterval, WaitTime.start, hI, hc]
  | pause => simp [step, WaitTime.pause]
  | resume => simp [step, WaitTime.resume]
  | timeOver =>
    have h := WaitTime.timeOver_snd_fields w now
    exact ⟨h.2.2.2.2.1, h.2.2.1⟩
  | getDuration => simp [step]
  | isPause => simp [step]

theorem run_keepsContinue (evs : List (Op × Nat)) (w : WaitTime)
    (hops : evs.all (fun ev => keepsContinue ev.1) = true) :
    (run w evs).mContinue = w.mContinue ∧ (run w evs).mLastStart = w.mLastStart := by
  induction evs generalizing w with
  | nil => simp [run]
  | cons ev rest ih =>
    obtain ⟨op, n⟩ := ev
    simp only [List.all_cons, Bool.and_eq_true] at hops
    have h1 := step_keepsContinue w n op hops.1
    have h2 := ih (step w n op).2 hops.2
    simp only [run]
    exact ⟨h2.1.trans h1.1, h2.2.trans h1.2⟩

/-! ## Moving the epoch of the clock -/

theorem usub_shift_both (n s k : Nat) :
    usub ((n + k) % ULONG_MOD) ((s + k) % ULONG_MOD) = usub n s := by
  unfold usub ULONG_MOD
  omega

theorem usub_shift_left (n d k : Nat) :
    usub ((n + k) % ULONG_MOD) d = (usub n d + k) % ULONG_MOD := by
  unfold usub ULONG_MOD
  omega

theorem step_shift (w : WaitTime) (n k : Nat) (op : Op) (hI : w.mInitialized = true)
    (hop : epochOp op = true) :
    step (shiftStart k w) ((n + k) % ULONG_MOD) op
        = ((step w n op).1, shiftStart k (step w n op).2) ∧
      (step w n op).2.mInitialized = true := by
  cases op with
  | setTime interval => simp [epochOp] at hop
  | init => simp [epochOp] at hop
  | initInterval interval => simp [epochOp] at hop
  | start => simp [step, WaitTime.start, shiftStart, hI]
  | startInterval interval =>
    cases hc : w.mContinue <;>
      simp [step, WaitTime.startInterval, WaitTime.start, shiftStart, hI, hc]
  | restart => simp [step, WaitTime.restart, WaitTime.init, WaitTime.start, shiftStart]
  | pause => simp [step, WaitTime.pause, shiftStart, usub_shift_both, hI]
  | resume => simp [step, WaitTime.resume, shiftStart, usub_shift_left, hI]
  | timeOver =>
    cases hp : w.mPause
    · by_cases hge : usub n w.mStartTime ≥ w.mWaitTime
      · simp [step, WaitTime.timeOver, shiftStart, usub_shift_both, hI, hp, hge]
      · simp [step, WaitTime.timeOver, shiftStart, usub_shift_both, hI, hp, hge]
    · simp [step, WaitTime.timeOver, shiftStart, hI, hp]
  | getDuration => simp [step, WaitTime.getDuration, shiftStart, hI]
  | isPause => simp [step, WaitTime.isPause, shiftStart, hI]

theorem run_shift (evs : List (Op × Nat)) (w : WaitTime) (k : Nat)
    (hI : w.mInitialized = true) (hops : evs.all (fun ev => epochOp ev.1) = true) :
    outputs (shiftStart k w) (shiftClock k evs) = outputs w evs ∧
      run (shiftStart k w) (shiftClock k evs) = shiftStart k (run w evs) := by
  induction evs generalizing w with
  | nil => simp [outputs, run, shiftClock]
  | cons ev rest ih =>
    obtain ⟨op, n⟩ := ev
    simp only [List.all_cons, Bool.and_eq_true] at hops
    have h1 := step_shift w n k op hI hops.1
    have h2 := ih (step w n op).2 h1.2 hops.2
    simp only [shiftClock, List.map_cons, outputs, run, h1.1] at h2 ⊢
    exact ⟨by rw [h2.1], h2.2⟩

/-! ## Claims -/

/-- C1: after `setTime d` and `start()` at clock `s`, with any `timeOver()` polls in
between and no wrap of the clock, `timeOver()` at clock `t ≥ s` returns true exactly
when `t - s ≥ d`. -/
theorem C1_expiry_threshold (w0 : WaitTime) (d s t : Nat) (ps : List Nat)
    (hst : s ≤ t) (ht : t < ULONG_MOD) :
    ((((w0.setTime d).start s).polls ps).timeOver t).1 = true ↔ d ≤ t - s := by
  have hf := WaitTime.polls_fields ((w0.setTime d).start s) ps
  rw [WaitTime.timeOver_fst, hf.1, hf.2.1, hf.2.2.2.2.2]
  have hs : usub t s = t - s := usub_of_le hst ht
  simp [WaitTime.setTime, WaitTime.init, WaitTime.start, hs]

/-- Witness for C1: the example of the specification, `d = 5000`, `s = 0`, polled at 5000
after a poll at 1000. -/
theorem C1_expiry_threshold_witness :
    0 ≤ 5000 ∧ 5000 < ULONG_MOD ∧
    (((((WaitTime.used.setTime 5000).start 0).polls [1000]).timeOver
      5000).1 = true ↔ 5000 ≤ 5000 - 0) :=
  ⟨by decide, by decide,
    C1_expiry_threshold WaitTime.used 5000 0 5000 [1000]
      (by decide) (by decide)⟩

/-- C2: after `setTime d`, `start()` at `s`, one `pause()` at `p`, `resume()` at `r`, with
`s ≤ p ≤ r ≤ t`, no wrap of the clock and any `timeOver()` polls interleaved, `timeOver()`
at clock `t` returns true exactly when `(t - s) - (r - p) ≥ d`: the paused span `r - p`
is not counted. -/
theorem C2_pause_freezes_elapsed (w0 : WaitTime) (d s p r t : Nat) (ps1 ps2 ps3 : List Nat)
    (hsp : s ≤ p) (hpr : p ≤ r) (hrt : r ≤ t) (ht : t < ULONG_MOD) :
    ((((((((w0.setTime d).start s).polls ps1).pause p).polls ps2).resume r).polls
      ps3).timeOver t).1 = true ↔ d ≤ (t - s) - (r - p) := by
  have h1 := WaitTime.polls_fields ((w0.setTime d).start s) ps1
  have hpaused : ((((w0.setTime d).start s).polls ps1).pause p).mPause = true := rfl
  rw [WaitTime.polls_paused _ ps2 hpaused]
  have h3 := WaitTime.polls_fields
    (((((w0.setTime d).start s).polls ps1).pause p).resume r) ps3
  rw [WaitTime.timeOver_fst, h3.1, h3.2.1, h3.2.2.2.2.2]
  simp only [WaitTime.resume, WaitTime.pause, h1.1, h1.2.1]
  have hs : ((w0.setTime d).start s).mStartTime = s := by
    simp [WaitTime.setTime, WaitTime.init, WaitTime.start]
  have hd : ((w0.setTime d).start s).mWaitTime = d := by
    simp [WaitTime.setTime, WaitTime.init, WaitTime.start]
  rw [hs, hd]
  have e1 : usub p s = p - s := usub_of_le hsp (by omega)
  have e2 : usub r (p - s) = r - (p - s) := usub_of_le (by omega) (by omega)
  have e3 : usub t (r - (p - s)) = t - (r - (p - s)) := usub_of_le (by omega) ht
  rw [e1, e2, e3]
  simp only [Bool.not_false, Bool.true_and, decide_eq_true_eq]
  omega

/-- Witness for C2: `d = 5000`, started at 0, paused from 2000 to 3500, polled at 6500. -/
theorem C2_pause_freezes_elapsed_witness :
    0 ≤ 2000 ∧ 2000 ≤ 3500 ∧ 3500 ≤ 6500 ∧ 6500 < ULONG_MOD ∧
    (((((((((WaitTime.used.setTime 5000).start 0).polls [1000]).pause
      2000).polls [3000]).resume 3500).polls [4000]).timeOver 6500).1 = true ↔
      5000 ≤ (6500 - 0) - (3500 - 2000)) :=
  ⟨by decide, by decide, by decide, by decide,
    C2_pause_freezes_elapsed WaitTime.used 5000 0 2000 3500 6500
      [1000] [3000] [4000] (by decide) (by decide) (by decide) (by decide)⟩

/-- C3: after `init(d1)`, a following `start(d2)` at clock `now` sets `mWaitTime` to `d1`,
marks the timer running and captures `now` as `mStartTime`. -/
theorem C3_continuation (w : WaitTime) (d1 d2 now : Nat) :
    ((w.initInterval d1).startInterval d2 now).mWaitTime = d1 ∧
    ((w.initInterval d1).startInterval d2 now).mInitialized = true ∧
    ((w.initInterval d1).startInterval d2 now).mStartTime = now := by
  simp [WaitTime.initInterval, WaitTime.startInterval, WaitTime.start]

/-- C4: on any object with `mWaitTime > 0`, `restart()` at clock `t` followed by
`timeOver()` at the same reading returns false. -/
theorem C4_restart_fresh_cycle (w : WaitTime) (t : Nat) (hd : 0 < w.mWaitTime) :
    ((w.restart t).timeOver t).1 = false := by
  rw [WaitTime.timeOver_fst]
  simp only [WaitTime.restart, WaitTime.init, WaitTime.start, if_true, usub_self_eq_zero]
  simp
  omega

/-- Witness for C4: a timer of 5000 ms started at 0 that has reported expiry at 9000. -/
theorem C4_restart_fresh_cycle_witness :
    0 < ((((WaitTime.used.setTime 5000).start 0).timeOver
      9000).2).mWaitTime ∧
    ((((((WaitTime.used.setTime 5000).start 0).timeOver
      9000).2).restart 9001).timeOver 9001).1 = false :=
  ⟨by decide,
    C4_restart_fresh_cycle
      (((WaitTime.used.setTime 5000).start 0).timeOver 9000).2 9001
      (by decide)⟩

/-- C5: `getDuration()` right after a `timeOver()` poll does not wrap. If the poll
returned true, `getDuration()` is 0. If it returned false on a timer that is not paused,
`getDuration()` is `mWaitTime` minus the elapsed time `now - mStartTime`, which is
positive and at most `mWaitTime`. -/
theorem C5_remaining_after_poll (w : WaitTime) (now : Nat) :
    ((w.timeOver now).1 = true →
      (w.timeOver now).2.mDuration = w.mWaitTime ∧ (w.timeOver now).2.getDuration = 0) ∧
    (w.mWaitTime < ULONG_MOD → w.mPause = false → (w.timeOver now).1 = false →
      (w.timeOver now).2.getDuration = w.mWaitTime - usub now w.mStartTime ∧
      0 < (w.timeOver now).2.getDuration ∧
      (w.timeOver now).2.getDuration ≤ w.mWaitTime) := by
  have hlt := usub_lt now w.mStartTime
  constructor
  · intro h
    unfold WaitTime.timeOver at h ⊢
    cases hp : w.mPause
    · simp only [hp, if_true] at h ⊢
      split at h
      · rename_i hge
        simp only [if_pos hge, WaitTime.getDuration, usub_self_eq_zero, and_self]
      · simp at h
    · simp [hp] at h
  · intro hw hp h
    unfold WaitTime.timeOver at h ⊢
    simp only [hp, if_true] at h ⊢
    split at h
    · simp at h
    · rename_i hge
      simp only [if_neg hge, WaitTime.getDuration]
      simp only [ge_iff_le, not_le] at hge
      unfold usub ULONG_MOD at *
      omega

/-- Witness for C5: the example of the specification, `d = 5000` started at 0:
`getDuration()` is 0 after the poll at 5000 and 4000 after the poll at 1000. -/
theorem C5_remaining_after_poll_witness :
    (((WaitTime.used.setTime 5000).start 0).timeOver 5000).2.getDuration = 0 ∧
    (((WaitTime.used.setTime 5000).start 0).timeOver 1000).2.getDuration = 5000 - 1000 :=
  ⟨((C5_remaining_after_poll ((WaitTime.used.setTime 5000).start 0) 5000).1
      (by decide)).2,
   ((C5_remaining_after_poll ((WaitTime.used.setTime 5000).start 0) 1000).2
      (by decide) (by decide) (by decide)).1⟩

/-- C6: `start()` on an object whose `mInitialized` is true changes nothing, whatever the
clock reads; hence `start()` at `s` followed by `start()` at `s2` gives the object that the
single `start()` at `s` gives. -/
theorem C6_start_idempotent (w : WaitTime) (s s2 : Nat) :
    (w.mInitialized = true → w.start s2 = w) ∧ (w.start s).start s2 = w.start s := by
  constructor
  · intro h
    simp [WaitTime.start, h]
  · cases h : w.mInitialized <;> simp [WaitTime.start, h]

/-- Witness for C6: a timer started at 100 is not moved by `start()` at 900. -/
theorem C6_start_idempotent_witness :
    ((WaitTime.used.setTime 5000).start 100).mInitialized = true ∧
    ((WaitTime.used.setTime 5000).start 100).start 900 =
      (WaitTime.used.setTime 5000).start 100 :=
  ⟨by decide,
    (C6_start_idempotent ((WaitTime.used.setTime 5000).start 100) 100 900).1 (by decide)⟩

/-- C7: on an object with `mPause` true, `timeOver()` returns false at every clock reading
and leaves every member unchanged; so after any run of polls the object, and with it the
value of `getDuration()`, is what it was. -/
theorem C7_paused_never_expires (w : WaitTime) (now : Nat) (ps : List Nat)
    (hp : w.mPause = true) :
    w.timeOver now = (false, w) ∧ w.polls ps = w ∧
      (w.polls ps).getDuration = w.getDuration := by
  refine ⟨WaitTime.timeOver_paused w now hp, WaitTime.polls_paused w ps hp, ?_⟩
  rw [WaitTime.polls_paused w ps hp]

/-- Witness for C7: a 5000 ms timer started at 0 and paused at 1000, polled far past its
deadline. -/
theorem C7_paused_never_expires_witness :
    (((WaitTime.used.setTime 5000).start 0).pause 1000).mPause = true ∧
    (((WaitTime.used.setTime 5000).start 0).pause 1000).timeOver 900000 =
      (false, ((WaitTime.used.setTime 5000).start 0).pause 1000) :=
  ⟨by decide,
    (C7_paused_never_expires (((WaitTime.used.setTime 5000).start 0).pause 1000) 900000
      [6000, 7000] (by decide)).1⟩

/-- C8: `pause()` has no guard. On a 1000 ms timer started at 0 and paused at 100, a second
`pause()` at 500 overwrites the frozen `mDuration` 100 with 500, so the following `resume()`
at 600 sets `mStartTime` to 100 where the single `pause()` gives 500, and the timer
reports expiry at clock 1100 after running for 600 ms only. -/
theorem C8_pause_unguarded :
    (((WaitTime.used.setTime 1000).start 0).pause 100).mPause = true ∧
    (((WaitTime.used.setTime 1000).start 0).pause 100).mDuration = 100 ∧
    ((((WaitTime.used.setTime 1000).start 0).pause 100).pause 500).mDuration = 500 ∧
    (((((WaitTime.used.setTime 1000).start 0).pause 100).pause 500).resume 600).mStartTime
      = 100 ∧
    ((((WaitTime.used.setTime 1000).start 0).pause 100).resume 600).mStartTime = 500 ∧
    ((((((WaitTime.used.setTime 1000).start 0).pause 100).pause 500).resume 600).timeOver
      1100).1 = true ∧
    (((((WaitTime.used.setTime 1000).start 0).pause 100).resume 600).timeOver
      1100).1 = false := by
  decide

/-- C9, as the claim states it, fails in three ways. On a 5000 ms timer started at 0 that
has reported expiry at 5000: after `pause()` at 6000 the poll at 7000 returns false; after
`start(8000)` at 6000 the poll at 7000 returns false. On a 5000 ms timer that was never
started, the poll at 6000 returns true, and after `start()` at 6000 the poll at 7000
returns false. -/
theorem C9_latching_counterexample :
    (((WaitTime.used.setTime 5000).start 0).timeOver 5000).1 = true ∧
    outputs (((WaitTime.used.setTime 5000).start 0).timeOver 5000).2
      [(Op.pause, 6000), (Op.timeOver, 7000)] = [Ret.void, Ret.bool false] ∧
    outputs (((WaitTime.used.setTime 5000).start 0).timeOver 5000).2
      [(Op.startInterval 8000, 6000), (Op.timeOver, 7000)] = [Ret.void, Ret.bool false] ∧
    ((WaitTime.used.setTime 5000).timeOver 6000).1 = true ∧
    outputs ((WaitTime.used.setTime 5000).timeOver 6000).2
      [(Op.start, 6000), (Op.timeOver, 7000)] = [Ret.void, Ret.bool false] := by
  decide

/-- C9, amended: let `timeOver()` return true at clock `t0` on a started timer whose
`mStartTime` is not ahead of the clock. After every sequence of `start()`, `pause()`,
`resume()`, `timeOver()`, `getDuration()` and of `start(interval)` calls that do not raise
`mWaitTime`, made at clock readings that never decrease and do not wrap, a `timeOver()`
poll returns true exactly when the timer is not paused. -/
theorem C9_latching_amended (w : WaitTime) (t0 t : Nat) (evs : List (Op × Nat))
    (hI : w.mInitialized = true) (hS : w.mStartTime ≤ t0)
    (hexp : (w.timeOver t0).1 = true)
    (hops : latchOps (w.timeOver t0).2 evs = true)
    (hclk : clockOk t0 (evs ++ [(Op.timeOver, t)]) = true) :
    ((run (w.timeOver t0).2 evs).timeOver t).1 = !(run (w.timeOver t0).2 evs).mPause := by
  have ht0 : t0 < ULONG_MOD := by
    cases evs with
    | nil =>
      simp [clockOk] at hclk
      omega
    | cons ev rest =>
      simp only [List.cons_append, clockOk, Bool.and_eq_true, decide_eq_true_eq] at hclk
      omega
  have hinv := expiredAt_run evs (w.timeOver t0).2 t0 t
    (expiredAt_of_timeOver hI hS ht0 hexp) hops hclk
  obtain ⟨_, hS2, _, _, ht⟩ := hinv
  rw [WaitTime.timeOver_fst]
  have e : usub t (run (w.timeOver t0).2 evs).mStartTime
      = t - (run (w.timeOver t0).2 evs).mStartTime := usub_of_le (by omega) ht
  rw [e]
  have hle : (run (w.timeOver t0).2 evs).mWaitTime
      ≤ t - (run (w.timeOver t0).2 evs).mStartTime := by omega
  simp [hle]

/-- Witness for C9 amended: a 5000 ms timer started at 0 reports expiry at 5000; after a
pause from 6000 to 8000, a lowering `start(3000)` and another poll, the poll at 9500 on
the resumed timer returns true. -/
theorem C9_latching_amended_witness :
    ((WaitTime.used.setTime 5000).start 0).mInitialized = true ∧
    ((WaitTime.used.setTime 5000).start 0).mStartTime ≤ 5000 ∧
    (((WaitTime.used.setTime 5000).start 0).timeOver 5000).1 = true ∧
    ((run (((WaitTime.used.setTime 5000).start 0).timeOver 5000).2
      [(Op.getDuration, 5500), (Op.pause, 6000), (Op.timeOver, 7000), (Op.resume, 8000),
        (Op.startInterval 3000, 8500), (Op.start, 9000), (Op.timeOver, 9000)]).timeOver
      9500).1 =
    !(run (((WaitTime.used.setTime 5000).start 0).timeOver 5000).2
      [(Op.getDuration, 5500), (Op.pause, 6000), (Op.timeOver, 7000), (Op.resume, 8000),
        (Op.startInterval 3000, 8500), (Op.start, 9000), (Op.timeOver, 9000)]).mPause :=
  ⟨by decide, by decide, by decide,
    C9_latching_amended ((WaitTime.used.setTime 5000).start 0) 5000 9500
      [(Op.getDuration, 5500), (Op.pause, 6000), (Op.timeOver, 7000), (Op.resume, 8000),
        (Op.startInterval 3000, 8500), (Op.start, 9000), (Op.timeOver, 9000)]
      (by decide) (by decide) (by decide) (by decide) (by decide)⟩

/-- C10: `timerStarted()` does not report `mInitialized`: its result is the same on every
object, and on a started timer (`mInitialized` true) it can be false. -/
theorem C10_timerStarted_ignores_flag :
    (∀ (w1 w2 : WaitTime) (r : Bool), w1.timerStarted r = w2.timerStarted r) ∧
    ((WaitTime.new WaitTime.used).start 0).mInitialized = true ∧
    ((WaitTime.new WaitTime.used).start 0).timerStarted false = false := by
  refine ⟨fun _ _ _ => rfl, by decide, rfl⟩

/-- C11: elapsed time is right across a wrap of the clock. After `setTime d` and `start()`
at the 32 bit reading `s`, the poll at the reading `(s + e) mod 2^32`, for a true elapsed
time `e < 2^32`, returns true exactly when `e ≥ d`, also when that reading is below `s`. -/
theorem C11_wraparound_elapsed (w0 : WaitTime) (d s e : Nat) (he : e < ULONG_MOD) :
    (((w0.setTime d).start s).timeOver ((s + e) % ULONG_MOD)).1 = true ↔ d ≤ e := by
  rw [WaitTime.timeOver_fst]
  have hu : usub ((s + e) % ULONG_MOD) s = e := by
    unfold usub ULONG_MOD at *
    omega
  simp [WaitTime.setTime, WaitTime.init, WaitTime.start, hu]

/-- Witness for C11: started at 4294967000, polled 1000 ms later at the wrapped reading
704, with a duration of 500. -/
theorem C11_wraparound_elapsed_witness :
    1000 < ULONG_MOD ∧ (4294967000 + 1000) % ULONG_MOD = 704 ∧
    ((((WaitTime.used.setTime 500).start 4294967000).timeOver
      ((4294967000 + 1000) % ULONG_MOD)).1 = true ↔ 500 ≤ 1000) :=
  ⟨by decide, by decide,
    C11_wraparound_elapsed WaitTime.used 500 4294967000 1000 (by decide)⟩

/-- C12: a duration of 0 is expired on the first poll. After `setTime 0` on any object,
and on a freshly constructed object, `timeOver()` returns true at every clock reading,
with or without a `start()` in between. -/
theorem C12_zero_duration_expired (w : WaitTime) (now s : Nat) :
    ((w.setTime 0).timeOver now).1 = true ∧
    (((w.setTime 0).start s).timeOver now).1 = true ∧
    ((WaitTime.new w).timeOver now).1 = true ∧
    (((WaitTime.new w).start s).timeOver now).1 = true := by
  simp [WaitTime.timeOver_fst, WaitTime.new, WaitTime.setTime, WaitTime.init, WaitTime.start]

/-- C13: continue mode stays until a plain reset. No sequence of `start()`,
`start(interval)`, `pause()`, `resume()`, `timeOver()`, `getDuration()`, `isPause()` calls
changes `mContinue` or `mLastStart`; so after `init(d1)` and any such sequence, `start(x)`
sets `mWaitTime` to `d1` for every `x`. `init()`, `setTime()` and `restart()` clear
`mContinue`. -/
theorem C13_continue_persists (w : WaitTime) (evs : List (Op × Nat)) (d1 x now : Nat)
    (hops : evs.all (fun ev => keepsContinue ev.1) = true) :
    ((run w evs).mContinue = w.mContinue ∧ (run w evs).mLastStart = w.mLastStart) ∧
    ((run (w.initInterval d1) evs).startInterval x now).mWaitTime = d1 ∧
    ((w.init).mContinue = false ∧ (w.setTime x).mContinue = false ∧
      (w.restart now).mContinue = false) := by
  refine ⟨run_keepsContinue evs w hops, ?_, ?_⟩
  · have h := run_keepsContinue evs (w.initInterval d1) hops
    have hc : (run (w.initInterval d1) evs).mContinue = true := h.1
    have hl : (run (w.initInterval d1) evs).mLastStart = d1 := h.2
    cases hI : (run (w.initInterval d1) evs).mInitialized <;>
      simp [WaitTime.startInterval, WaitTime.start, hc, hl, hI]
  · refine ⟨rfl, rfl, ?_⟩
    simp [WaitTime.restart, WaitTime.init, WaitTime.start]

/-- Witness for C13: after `init(3000)`, a run of `start(10)`, polls, a pause and a resume,
`start(99)` still sets `mWaitTime` to 3000. -/
theorem C13_continue_persists_witness :
    ((run (WaitTime.used.initInterval 3000)
      [(Op.startInterval 10, 0), (Op.timeOver, 100), (Op.pause, 200), (Op.isPause, 250),
        (Op.resume, 300), (Op.getDuration, 350), (Op.start, 400)]).startInterval 99
      500).mWaitTime = 3000 :=
  (C13_continue_persists WaitTime.used
    [(Op.startInterval 10, 0), (Op.timeOver, 100), (Op.pause, 200), (Op.isPause, 250),
      (Op.resume, 300), (Op.getDuration, 350), (Op.start, 400)] 3000 99 500
    (by decide)).2.1

/-- C14: `restart()` is `init()` followed by `start()`, and it is what the specification
describes: `mStartTime` the clock reading, running, not paused, continue mode off,
`mLastStart` 0, `mWaitTime` kept. So after `init(d1); restart()` the duration is the one
from before `init(d1)`, and a later `start(d2)` sets `mWaitTime` to `d2`. -/
theorem C14_restart_is_reset_then_start (w : WaitTime) (t d1 d2 t2 : Nat) :
    w.restart t = (w.init).start t ∧
    w.restart t = restartAsSpecified w t ∧
    ((w.initInterval d1).restart t).mWaitTime = w.mWaitTime ∧
    ((w.initInterval d1).restart t).mContinue = false ∧
    (((w.initInterval d1).restart t).startInterval d2 t2).mWaitTime = d2 := by
  simp [WaitTime.restart, WaitTime.init, WaitTime.start, restartAsSpecified,
    WaitTime.initInterval, WaitTime.startInterval]

/-- C15: what the three resets write. `init()` clears `mStartTime`, `mLastStart`,
`mInitialized`, `mContinue`, `mPause` and keeps `mWaitTime`; `init(d)` does the same but
sets `mLastStart = d` and `mContinue = true`; `setTime(d)` gives the object of `init()`
with `mWaitTime = d`. -/
theorem C15_reset_frames (w : WaitTime) (d : Nat) :
    ((w.init).mStartTime = 0 ∧ (w.init).mLastStart = 0 ∧ (w.init).mInitialized = false ∧
      (w.init).mContinue = false ∧ (w.init).mPause = false ∧
      (w.init).mWaitTime = w.mWaitTime) ∧
    ((w.initInterval d).mStartTime = 0 ∧ (w.initInterval d).mLastStart = d ∧
      (w.initInterval d).mContinue = true ∧ (w.initInterval d).mPause = false ∧
      (w.initInterval d).mInitialized = false ∧
      (w.initInterval d).mWaitTime = w.mWaitTime) ∧
    w.setTime d = { w.init with mWaitTime := d } := by
  simp [WaitTime.init, WaitTime.initInterval, WaitTime.setTime]

/-- C16: `timeOver()` does not look at `mInitialized`. On a timer that was configured or
reset and never started, polled any number of times before, the poll at clock reading
`t` measures from timestamp 0: it returns true exactly when `t` has reached `mWaitTime`. -/
theorem C16_idle_timer_expires (w : WaitTime) (d t : Nat) (ps : List Nat)
    (ht : t < ULONG_MOD) :
    ((((w.setTime d).polls ps).timeOver t).1 = true ↔ d ≤ t) ∧
    ((((w.init).polls ps).timeOver t).1 = true ↔ w.mWaitTime ≤ t) ∧
    ((((w.initInterval d).polls ps).timeOver t).1 = true ↔ w.mWaitTime ≤ t) := by
  have h0 : usub t 0 = t := usub_of_le (Nat.zero_le t) ht
  have h1 := WaitTime.polls_fields (w.setTime d) ps
  have h2 := WaitTime.polls_fields (w.init) ps
  have h3 := WaitTime.polls_fields (w.initInterval d) ps
  refine ⟨?_, ?_, ?_⟩
  · rw [WaitTime.timeOver_fst, h1.1, h1.2.1, h1.2.2.2.2.2]
    simp [WaitTime.setTime, WaitTime.init, h0]
  · rw [WaitTime.timeOver_fst, h2.1, h2.2.1, h2.2.2.2.2.2]
    simp [WaitTime.init, h0]
  · rw [WaitTime.timeOver_fst, h3.1, h3.2.1, h3.2.2.2.2.2]
    simp [WaitTime.initInterval, h0]

/-- Witness for C16: a timer set to 5000 ms and never started reports expiry at clock
reading 6000. -/
theorem C16_idle_timer_expires_witness :
    6000 < ULONG_MOD ∧
    ((((WaitTime.used.setTime 5000).polls [100]).timeOver 6000).1 = true ↔ 5000 ≤ 6000) :=
  ⟨by decide, (C16_idle_timer_expires WaitTime.used 5000 6000 [100] (by decide)).1⟩

/-- C17: `getDuration()` can wrap in a reachable state. After `setTime(1000)`, `start()`
at clock 0 and `pause()` at clock 3000, `mDuration` holds the unclamped 3000 and
`getDuration()` returns `(1000 - 3000) mod 2^32 = 4294965296`, more than `mWaitTime`, and
keeps returning it through any polls made while the timer is paused. -/
theorem C17_remaining_wraps_when_paused (w0 : WaitTime) (ps : List Nat) :
    (((w0.setTime 1000).start 0).pause 3000).mWaitTime = 1000 ∧
    (((w0.setTime 1000).start 0).pause 3000).mDuration = 3000 ∧
    (((w0.setTime 1000).start 0).pause 3000).getDuration = 4294965296 ∧
    ((((w0.setTime 1000).start 0).pause 3000).polls ps).getDuration = 4294965296 := by
  have hp : (((w0.setTime 1000).start 0).pause 3000).mPause = true := rfl
  have hd : (((w0.setTime 1000).start 0).pause 3000).mDuration = 3000 := by
    simp [WaitTime.setTime, WaitTime.init, WaitTime.start, WaitTime.pause, usub, ULONG_MOD]
  have hw : (((w0.setTime 1000).start 0).pause 3000).mWaitTime = 1000 := by
    simp [WaitTime.setTime, WaitTime.init, WaitTime.start, WaitTime.pause]
  have hg : (((w0.setTime 1000).start 0).pause 3000).getDuration = 4294965296 := by
    simp only [WaitTime.getDuration, hd, hw]
    decide
  rw [WaitTime.polls_paused _ ps hp]
  exact ⟨hw, hd, hg, hg⟩

/-- C18: no reset or start writes `mDuration`. `setTime`, `init()`, `init(d)`, `start()`,
`start(interval)` and `restart()` leave it as it was; so when `timeOver()` has returned
true and `restart()` follows, `getDuration()` before the next poll returns 0. -/
theorem C18_cached_elapsed_survives (w : WaitTime) (d now t : Nat) :
    ((w.setTime d).mDuration = w.mDuration ∧ (w.init).mDuration = w.mDuration ∧
      (w.initInterval d).mDuration = w.mDuration ∧ (w.start now).mDuration = w.mDuration ∧
      (w.startInterval d now).mDuration = w.mDuration ∧
      (w.restart now).mDuration = w.mDuration) ∧
    ((w.timeOver now).1 = true → ((w.timeOver now).2.restart t).getDuration = 0) := by
  constructor
  · cases hI : w.mInitialized <;> cases hc : w.mContinue <;>
      simp [WaitTime.setTime, WaitTime.init, WaitTime.initInterval, WaitTime.start,
        WaitTime.startInterval, WaitTime.restart, hI, hc]
  · intro h
    have hclamp := timeOver_clamps w now h
    simp only [WaitTime.getDuration, WaitTime.restart, WaitTime.init, WaitTime.start, if_true]
    show usub (w.timeOver now).2.mWaitTime (w.timeOver now).2.mDuration = 0
    rw [hclamp]
    exact usub_self_eq_zero _

/-- Witness for C18: a 5000 ms timer started at 0 reports expiry at 9000; after `restart()`
at 9001, `getDuration()` still returns 0. -/
theorem C18_cached_elapsed_survives_witness :
    (((WaitTime.used.setTime 5000).start 0).timeOver 9000).1 = true ∧
    ((((WaitTime.used.setTime 5000).start 0).timeOver 9000).2.restart 9001).getDuration = 0 :=
  ⟨by decide,
    (C18_cached_elapsed_survives ((WaitTime.used.setTime 5000).start 0) 0 9000 9001).2
      (by decide)⟩

/-- C19: the timer does not depend on the epoch of the clock. Take any object, `setTime d`,
`start()` at `s`, then any sequence of `start()`, `start(interval)`, `pause()`, `resume()`,
`timeOver()`, `getDuration()`, `isPause()` and `restart()` calls. With every clock reading
moved on by `k` modulo `2^32` the calls return the same values, and the final object is
the same except that `mStartTime` is moved on by `k` modulo `2^32`. -/
theorem C19_epoch_independence (w0 : WaitTime) (d s k : Nat) (evs : List (Op × Nat))
    (hops : evs.all (fun ev => epochOp ev.1) = true) :
    outputs ((w0.setTime d).start ((s + k) % ULONG_MOD)) (shiftClock k evs)
        = outputs ((w0.setTime d).start s) evs ∧
      run ((w0.setTime d).start ((s + k) % ULONG_MOD)) (shiftClock k evs)
        = { run ((w0.setTime d).start s) evs with
            mStartTime := ((run ((w0.setTime d).start s) evs).mStartTime + k) % ULONG_MOD } := by
  have hI : ((w0.setTime d).start s).mInitialized = true := by
    simp [WaitTime.setTime, WaitTime.init, WaitTime.start]
  have hstart : (w0.setTime d).start ((s + k) % ULONG_MOD)
      = shiftStart k ((w0.setTime d).start s) := by
    simp [WaitTime.setTime, WaitTime.init, WaitTime.start, shiftStart]
  rw [hstart]
  exact run_shift evs ((w0.setTime d).start s) k hI hops

/-- Witness for C19: a 5000 ms timer with a pause, a resume and a restart, run once from
clock 0 and once from an epoch 4294967000 later, so that the second clock wraps. -/
theorem C19_epoch_independence_witness :
    outputs ((WaitTime.used.setTime 5000).start ((0 + 4294967000) % ULONG_MOD))
      (shiftClock 4294967000
        [(Op.timeOver, 1000), (Op.getDuration, 1000), (Op.pause, 2000), (Op.isPause, 2500),
          (Op.resume, 3000), (Op.timeOver, 6500), (Op.restart, 7000), (Op.timeOver, 7100),
          (Op.startInterval 50, 7100), (Op.start, 7150), (Op.timeOver, 7200)])
      = outputs ((WaitTime.used.setTime 5000).start 0)
        [(Op.timeOver, 1000), (Op.getDuration, 1000), (Op.pause, 2000), (Op.isPause, 2500),
          (Op.resume, 3000), (Op.timeOver, 6500), (Op.restart, 7000), (Op.timeOver, 7100),
          (Op.startInterval 50, 7100), (Op.start, 7150), (Op.timeOver, 7200)] :=
  (C19_epoch_independence WaitTime.used 5000 0 4294967000
    [(Op.timeOver, 1000), (Op.getDuration, 1000), (Op.pause, 2000), (Op.isPause, 2500),
      (Op.resume, 3000), (Op.timeOver, 6500), (Op.restart, 7000), (Op.timeOver, 7100),
      (Op.startInterval 50, 7100), (Op.start, 7150), (Op.timeOver, 7200)]
    (by decide)).1

end SmallCircuits
